import Mathlib

/-!
Verification of the orchestration logic in
`src/frontend/src/actions/index.js` of the opentransit-metrics frontend.

Calendar dates are modelled as day numbers (`Nat`); day `0` is a Sunday, so
`dayOfWeek d = d % 7` matches moment's `.day()` convention (0=Sunday ..
6=Saturday).  `Moment.diff(_, 'days')` between two dates is integer
subtraction of day numbers, and `.add(1, 'days')` is `+ 1`.  The
`YYYY-MM-DD` rendering of a day number is a bijection on valid dates, so
the emitted values are kept as day numbers; where an actual formatted
string is required (the arrivals URL) the rendering is an injective
function `formatDateNat`.
-/

namespace OpenTransit

/-- A date range selection from the UI state (`graphParams.firstDateRange`
/ `secondDateRange` in the source).  `daysOfTheWeek` is indexed
0=Sunday..6=Saturday.  `startTime`/`endTime` are `none` when the JS field
is absent (`undefined`). -/
structure DateRangeSelection where
  date : Nat
  startDate : Nat
  startTime : Option String
  endTime : Option String
  daysOfTheWeek : Fin 7 → Bool

/-- The selection parameters (`graphParams` in the source).  String-valued
identifiers are `none` when absent in JS. -/
structure SelectionParams where
  agencyId : Option String
  routeId : Option String
  directionId : Option String
  startStopId : Option String
  endStopId : Option String
  firstDateRange : DateRangeSelection
  secondDateRange : Option DateRangeSelection

/-- Day of week of a day number; day 0 is a Sunday (moment `.day()`). -/
def dayOfWeek (d : Nat) : Fin 7 := ⟨d % 7, Nat.mod_lt d (by norm_num)⟩

/-- `computeDates` from `actions/index.js` lines 18-47.

Source:
```
let endMoment = Moment(dateRangeParams.date);
const startMoment = Moment(dateRangeParams.startDate);
const deltaDays = endMoment.diff(startMoment, 'days');
let numberOfDaysBack = Math.abs(deltaDays) + 1;
if (deltaDays < 0) { endMoment = startMoment; }   // endMoment unused below
if (numberOfDaysBack > MAX_DATE_RANGE) { numberOfDaysBack = MAX_DATE_RANGE; }
const dates = [];
for (let i = 0; i < numberOfDaysBack; i++) {
  if (dateRangeParams.daysOfTheWeek[startMoment.day()]) {
    dates.push(startMoment.format('YYYY-MM-DD'));
  }
  startMoment.add(1, 'days');
}
return dates;
```
The reassignment of `endMoment` on the `deltaDays < 0` branch has no
effect on the loop, which always walks forward from `startMoment`.
`MAX_DATE_RANGE` comes from `../UIConstants` (not under `src/`); per the
spec contract `expand(selection, maxDays)` it is the `maxDateRange`
parameter here. -/
def computeDates (maxDateRange : Nat) (p : DateRangeSelection) : List Nat :=
  let deltaDays : Int := (p.date : Int) - (p.startDate : Int)
  let numberOfDaysBack : Nat := min (deltaDays.natAbs + 1) maxDateRange
  (List.range numberOfDaysBack).filterMap fun i =>
    if p.daysOfTheWeek (dayOfWeek (p.startDate + i)) then some (p.startDate + i) else none

/-- The single-character regex replace of every dash by a slash, as in
the source's `dateStr.replace` with the global dash regex. -/
def replaceDashes (s : String) : String :=
  String.mk (s.data.map fun c => if c = '-' then '/' else c)

/-- `generateArrivalsURL` from `actions/index.js` lines 60-65.  The config
constants `S3Bucket` and `ArrivalsVersion` come from `../config` (not
under `src/`) and are passed as parameters. -/
def generateArrivalsURL (S3Bucket ArrivalsVersion agencyId dateStr routeId : String) :
    String :=
  "https://" ++ S3Bucket ++ ".s3.amazonaws.com/arrivals/" ++ ArrivalsVersion ++ "/" ++
    agencyId ++ "/" ++ replaceDashes dateStr ++ "/arrivals_" ++ ArrivalsVersion ++ "_" ++
    agencyId ++ "_" ++ dateStr ++ "_" ++ routeId ++ ".json.gz?aj"

/-- JS template-string interpolation of a possibly-undefined value:
`undefined` renders as the text "undefined". -/
def jsStr (o : Option String) : String := o.getD "undefined"

/-- The `YYYY-MM-DD` rendering of a day number, used only as an equality
key when building the arrivals URL from the modelled state; any injective
rendering preserves the source's equality-based dedup behaviour. -/
def formatDateNat (d : Nat) : String := toString d

/-- Variable bindings built by `fetchTripMetrics` (lines 225-244). -/
structure TripVariables where
  agencyId : Option String
  routeId : Option String
  directionId : Option String
  startStopId : Option String
  endStopId : Option String
  dates : List Nat
  startTime : Option String
  endTime : Option String
  includeTimeRanges : Bool
  includeByDay : Bool
  includeTimeRanges2 : Bool
  dualDateRange : Bool
  dates2 : Option (List Nat)
  startTime2 : Option String
  endTime2 : Option String
deriving DecidableEq

/-- Variable bindings built by `fetchRouteMetrics` (lines 424-436).
`agencyId` is bound to `Agencies[0].id` (config, passed as `agency0`). -/
structure RouteVariables where
  agencyId : String
  routeId : Option String
  dates : List Nat
  startTime : Option String
  endTime : Option String
  dualDateRange : Bool
  dates2 : Option (List Nat)
  startTime2 : Option String
  endTime2 : Option String
deriving DecidableEq

/-- Variable bindings built by `fetchAgencyMetrics` (lines 504-509). -/
structure AgencyVariables where
  agencyId : String
  dates : List Nat
  startTime : Option String
  endTime : Option String
deriving DecidableEq

/-- The trip-scope variable bindings (`fetchTripMetrics`, lines 225-244).
JS truthiness `!params.firstDateRange.startTime` is `isNone` here, and the
optional `dates2`/`startTime2`/`endTime2` fields are set only when
`params.secondDateRange` is present. -/
def tripVariables (maxDateRange : Nat) (p : SelectionParams) : TripVariables :=
  let dates := computeDates maxDateRange p.firstDateRange
  { agencyId := p.agencyId
    routeId := p.routeId
    directionId := p.directionId
    startStopId := p.startStopId
    endStopId := p.endStopId
    dates := dates
    startTime := p.firstDateRange.startTime
    endTime := p.firstDateRange.endTime
    includeTimeRanges := p.firstDateRange.startTime.isNone
    includeByDay := p.secondDateRange.isNone && decide (dates.length > 1)
    includeTimeRanges2 :=
      p.secondDateRange.isSome &&
        (p.secondDateRange.elim true (fun r => r.startTime.isNone))
    dualDateRange := p.secondDateRange.isSome
    dates2 := p.secondDateRange.map (computeDates maxDateRange)
    startTime2 := p.secondDateRange.bind (fun r => r.startTime)
    endTime2 := p.secondDateRange.bind (fun r => r.endTime) }

/-- The route-scope variable bindings (`fetchRouteMetrics`, lines 424-436).
The source binds `agencyId: Agencies[0].id`, never `params.agencyId`. -/
def routeVariables (agency0 : String) (maxDateRange : Nat) (p : SelectionParams) :
    RouteVariables :=
  { agencyId := agency0
    routeId := p.routeId
    dates := computeDates maxDateRange p.firstDateRange
    startTime := p.firstDateRange.startTime
    endTime := p.firstDateRange.endTime
    dualDateRange := p.secondDateRange.isSome
    dates2 := p.secondDateRange.map (computeDates maxDateRange)
    startTime2 := p.secondDateRange.bind (fun r => r.startTime)
    endTime2 := p.secondDateRange.bind (fun r => r.endTime) }

/-- The agency-scope variable bindings (`fetchAgencyMetrics`, lines
504-509).  The source binds `agencyId: Agencies[0].id`. -/
def agencyVariables (agency0 : String) (maxDateRange : Nat) (p : SelectionParams) :
    AgencyVariables :=
  { agencyId := agency0
    dates := computeDates maxDateRange p.firstDateRange
    startTime := p.firstDateRange.startTime
    endTime := p.firstDateRange.endTime }

/-- A Redux action dispatched by the action creators of
`actions/index.js`.  `α` is the opaque leaf payload type carried by the
Received transitions (the source forwards backend data unexamined).
The source's `REQUEST_ROUTE_METRICS` / `REQUEST_AGENCY_METRICS` actions
carry the serialized variable bindings (`variablesJson`); serialization
with a stable field order is injective, so the bindings value itself is
the fingerprint here. `REQUEST_TRIP_METRICS` and `REQUEST_ARRIVALS` carry
no payload in the source. -/
inductive Action (α : Type) where
  | requestTripMetrics
  | receivedTripMetrics (data : Option α)
  | errorTripMetrics (error : String)
  | requestRouteMetrics (variablesJson : RouteVariables)
  | receivedRouteMetrics (variablesJson : RouteVariables) (data : Option α)
  | errorRouteMetrics (error : String)
  | requestAgencyMetrics (variablesJson : AgencyVariables)
  | receivedAgencyMetrics (variablesJson : AgencyVariables) (data : Option α)
  | errorAgencyMetrics (error : String)
  | requestArrivals
  | receivedArrivals (url : Option String) (data : Option α)
  | errorArrivals (error : String)
  | receivedGraphParams (params : SelectionParams)

/-- A network request issued by a fetch thunk, identified by its request
payload (the query documents are fixed per scope and omitted). -/
inductive NetworkCall where
  | graphqlTrip (tripVars : TripVariables)
  | graphqlRoute (routeVars : RouteVariables)
  | graphqlAgency (agencyVars : AgencyVariables)
  | arrivalsGet (url : String)
deriving DecidableEq

/-- The slice of the Redux store that the thunks in `actions/index.js`
read through `getState()`: `graphParams`, `routeMetrics.variablesJson`,
`agencyMetrics.variablesJson` and `arrivals.url`. -/
structure StoreState where
  graphParams : SelectionParams
  routeMetricsVariablesJson : Option RouteVariables
  agencyMetricsVariablesJson : Option AgencyVariables
  arrivalsUrl : Option String

/-- Modelled from the spec: the reducers live outside `src/`, so the
state updates are taken from the spec (sections 3 and 4.4): dispatching
`RECEIVED_GRAPH_PARAMS` replaces the stored params wholesale; the
route/agency `Requested` transitions record the fingerprint they carry
(`variablesJson`) as the last-issued request; `RECEIVED_ARRIVALS` records
the url it carries (the source's `REQUEST_ARRIVALS` action carries no
url, so no url can be recorded at issue time for the archive scope).
Actions carrying no state read by the thunks leave the slice unchanged. -/
def applyAction {α : Type} (s : StoreState) (a : Action α) : StoreState :=
  match a with
  | .receivedGraphParams p => { s with graphParams := p }
  | .requestRouteMetrics v => { s with routeMetricsVariablesJson := some v }
  | .receivedRouteMetrics v _ => { s with routeMetricsVariablesJson := some v }
  | .requestAgencyMetrics v => { s with agencyMetricsVariablesJson := some v }
  | .receivedAgencyMetrics v _ => { s with agencyMetricsVariablesJson := some v }
  | .receivedArrivals url _ => { s with arrivalsUrl := url }
  | _ => s

/-- Synchronous part of the `fetchTripMetrics` thunk (lines 224-254): it
receives only `dispatch` (no `getState`), performs no comparison against
prior state, and unconditionally dispatches `REQUEST_TRIP_METRICS` and
issues the network call. -/
def fetchTripMetricsSync (α : Type) (maxDateRange : Nat) (p : SelectionParams) :
    List (Action α) × List NetworkCall :=
  ([.requestTripMetrics], [.graphqlTrip (tripVariables maxDateRange p)])

/-- Synchronous part of the `fetchRouteMetrics` thunk (lines 372-449):
builds the bindings, and only when `getState().routeMetrics.variablesJson`
differs from their serialization dispatches `REQUEST_ROUTE_METRICS` and
issues the call. -/
def fetchRouteMetricsSync (α : Type) (agency0 : String) (maxDateRange : Nat)
    (p : SelectionParams) (s : StoreState) : List (Action α) × List NetworkCall :=
  let v := routeVariables agency0 maxDateRange p
  if s.routeMetricsVariablesJson ≠ some v then
    ([.requestRouteMetrics v], [.graphqlRoute v])
  else ([], [])

/-- Synchronous part of the `fetchAgencyMetrics` thunk (lines 482-520):
dedup against `getState().agencyMetrics.variablesJson`. -/
def fetchAgencyMetricsSync (α : Type) (agency0 : String) (maxDateRange : Nat)
    (p : SelectionParams) (s : StoreState) : List (Action α) × List NetworkCall :=
  let v := agencyVariables agency0 maxDateRange p
  if s.agencyMetricsVariablesJson ≠ some v then
    ([.requestAgencyMetrics v], [.graphqlAgency v])
  else ([], [])

/-- The arrivals URL built by `fetchArrivals` (lines 560-563) from
`params.firstDateRange.date`, `params.agencyId` and `params.routeId`. -/
def arrivalsUrlOf (S3Bucket ArrivalsVersion : String) (p : SelectionParams) : String :=
  generateArrivalsURL S3Bucket ArrivalsVersion (jsStr p.agencyId)
    (formatDateNat p.firstDateRange.date) (jsStr p.routeId)

/-- Synchronous part of the `fetchArrivals` thunk (lines 558-581): dedup
compares the generated S3 url against `getState().arrivals.url`; on a
fetch the source dispatches the payload-less `REQUEST_ARRIVALS`. -/
def fetchArrivalsSync (α : Type) (S3Bucket ArrivalsVersion : String)
    (p : SelectionParams) (s : StoreState) : List (Action α) × List NetworkCall :=
  let s3Url := arrivalsUrlOf S3Bucket ArrivalsVersion p
  if s.arrivalsUrl ≠ some s3Url then
    ([.requestArrivals], [.arrivalsGet s3Url])
  else ([], [])

/-- Two successive synchronous invocations of `fetchTripMetrics` with the
same params, threading the dispatched actions through the store; result is
the total number of network calls issued. -/
def fetchTripMetricsTwice (maxDateRange : Nat) (p : SelectionParams)
    (s : StoreState) : Nat :=
  let r1 := fetchTripMetricsSync Unit maxDateRange p
  let s1 := r1.1.foldl applyAction s
  let r2 := fetchTripMetricsSync Unit maxDateRange p
  let _ := s1
  r1.2.length + r2.2.length

/-- Two successive synchronous invocations of `fetchRouteMetrics`;
total number of network calls issued. -/
def fetchRouteMetricsTwice (agency0 : String) (maxDateRange : Nat)
    (p : SelectionParams) (s : StoreState) : Nat :=
  let r1 := fetchRouteMetricsSync Unit agency0 maxDateRange p s
  let s1 := r1.1.foldl applyAction s
  let r2 := fetchRouteMetricsSync Unit agency0 maxDateRange p s1
  r1.2.length + r2.2.length

/-- Two successive synchronous invocations of `fetchAgencyMetrics`;
total number of network calls issued. -/
def fetchAgencyMetricsTwice (agency0 : String) (maxDateRange : Nat)
    (p : SelectionParams) (s : StoreState) : Nat :=
  let r1 := fetchAgencyMetricsSync Unit agency0 maxDateRange p s
  let s1 := r1.1.foldl applyAction s
  let r2 := fetchAgencyMetricsSync Unit agency0 maxDateRange p s1
  r1.2.length + r2.2.length

/-- Two successive synchronous invocations of `fetchArrivals` (no
response arriving in between); total number of network calls issued. -/
def fetchArrivalsTwice (S3Bucket ArrivalsVersion : String)
    (p : SelectionParams) (s : StoreState) : Nat :=
  let r1 := fetchArrivalsSync Unit S3Bucket ArrivalsVersion p s
  let s1 := r1.1.foldl applyAction s
  let r2 := fetchArrivalsSync Unit S3Bucket ArrivalsVersion p s1
  r1.2.length + r2.2.length

/-- The `handleGraphParams` thunk (lines 598-638): dispatch the params
replacement, reset the arrivals archive when the identity triple (first
range date, routeId, agencyId) changed, then trigger the three metric
fetches according to which parameters are present (the `resetTripMetrics`
else-branch dispatches `RECEIVED_TRIP_METRICS` with null data).  Each
inner thunk runs against the store state accumulated so far.  The
source's guard `if (graphParams.firstDateRange.date)` tests a nonempty
ISO date string; dates are always present under the data-model invariant,
so the guard is true here. -/
def handleGraphParams (α : Type) (agency0 : String) (maxDateRange : Nat)
    (p : SelectionParams) (s0 : StoreState) : List (Action α) × List NetworkCall :=
  let oldParams := s0.graphParams
  let act0 : Action α := .receivedGraphParams p
  let s1 := applyAction s0 act0
  let g := s1.graphParams
  let resetActs : List (Action α) :=
    if oldParams.firstDateRange.date ≠ g.firstDateRange.date ∨
        oldParams.routeId ≠ g.routeId ∨ oldParams.agencyId ≠ g.agencyId then
      [.receivedArrivals none none]
    else []
  let s2 := resetActs.foldl applyAction s1
  let ra := fetchAgencyMetricsSync α agency0 maxDateRange g s2
  let s3 := ra.1.foldl applyAction s2
  let rr :=
    if g.agencyId.isSome ∧ g.routeId.isSome then
      fetchRouteMetricsSync α agency0 maxDateRange g s3
    else ([], [])
  let s4 := rr.1.foldl applyAction s3
  let rt :=
    if g.agencyId.isSome ∧ g.routeId.isSome ∧ g.directionId.isSome ∧
        g.startStopId.isSome ∧ g.endStopId.isSome then
      fetchTripMetricsSync α maxDateRange g
    else ([.receivedTripMetrics none], [])
  let _ := s4
  (act0 :: (resetActs ++ ra.1 ++ rr.1 ++ rt.1), ra.2 ++ rr.2 ++ rt.2)

/-- Whether an action is one of the metrics-fetch state transitions
(agency, route or trip Requested/Received/Errored). -/
def isMetricsTransition {α : Type} : Action α → Bool
  | .requestTripMetrics => true
  | .receivedTripMetrics _ => true
  | .errorTripMetrics _ => true
  | .requestRouteMetrics _ => true
  | .receivedRouteMetrics _ _ => true
  | .errorRouteMetrics _ => true
  | .requestAgencyMetrics _ => true
  | .receivedAgencyMetrics _ _ => true
  | .errorAgencyMetrics _ => true
  | _ => false

/-- A structured backend error, `{ message }`. -/
structure GraphQLError where
  message : String
deriving DecidableEq

/-- The `route` node inside the trip-scope response's `agency` node. -/
structure TripRouteNode (α : Type) where
  trip : Option α

/-- The `agency` node of the trip-scope response data. -/
structure TripAgencyNode (α : Type) where
  route : Option (TripRouteNode α)

/-- Trip-scope response `data`: `{ agency: { route: { trip } } }`,
with any intermediate node possibly missing. -/
structure TripData (α : Type) where
  agency : Option (TripAgencyNode α)

/-- The `agency` node of the route-scope response data. -/
structure RouteAgencyNode (α : Type) where
  route : Option α

/-- Route-scope response `data`: `{ agency: { route } }`. -/
structure RouteData (α : Type) where
  agency : Option (RouteAgencyNode α)

/-- Agency-scope response `data`: `{ agency }`. -/
structure AgencyData (α : Type) where
  agency : Option α

/-- A GraphQL response body `{ data?, errors? }`.  In JS any array value
of `errors` is truthy, so the source's `responseData.errors` test is
`isSome` here. -/
structure GraphQLResponse (δ : Type) where
  data : Option δ
  errors : Option (List GraphQLError)

/-- Stand-in for the message of the TypeError the JS engine raises when
the source evaluates `responseData.errors[0].message` on an empty errors
array (the exception then lands in the transport catch handler). -/
def jsTypeErrorMessage : String := "TypeError: undefined has no message"

/-- The trip-scope response continuation (`fetchTripMetrics` lines
255-273): a present `errors` list dispatches `ERROR_TRIP_METRICS` with
the first error's message; otherwise the nested
`data.agency.route.trip` substructure is extracted, any missing node
collapsing to null, and `RECEIVED_TRIP_METRICS` is dispatched. -/
def tripThen (α : Type) (resp : Option (GraphQLResponse (TripData α))) : Action α :=
  match resp with
  | some r =>
    match r.errors with
    | some es =>
      .errorTripMetrics
        (match es with
          | e :: _ => e.message
          | [] => jsTypeErrorMessage)
    | none =>
      .receivedTripMetrics
        (((r.data.bind TripData.agency).bind TripAgencyNode.route).bind TripRouteNode.trip)
  | none => .receivedTripMetrics none

/-- The route-scope response continuation (`fetchRouteMetrics` lines
450-470). -/
def routeThen (α : Type) (variablesJson : RouteVariables)
    (resp : Option (GraphQLResponse (RouteData α))) : Action α :=
  match resp with
  | some r =>
    match r.errors with
    | some es =>
      .errorRouteMetrics
        (match es with
          | e :: _ => e.message
          | [] => jsTypeErrorMessage)
    | none =>
      .receivedRouteMetrics variablesJson
        ((r.data.bind RouteData.agency).bind RouteAgencyNode.route)
  | none => .receivedRouteMetrics variablesJson none

/-- The agency-scope response continuation (`fetchAgencyMetrics` lines
521-540). -/
def agencyThen (α : Type) (variablesJson : AgencyVariables)
    (resp : Option (GraphQLResponse (AgencyData α))) : Action α :=
  match resp with
  | some r =>
    match r.errors with
    | some es =>
      .errorAgencyMetrics
        (match es with
          | e :: _ => e.message
          | [] => jsTypeErrorMessage)
    | none => .receivedAgencyMetrics variablesJson (r.data.bind AgencyData.agency)
  | none => .receivedAgencyMetrics variablesJson none

/-- A transport-level failure delivered to a catch handler. -/
structure TransportError where
  message : String

/-- The arrivals fetch continuation (`fetchArrivals` lines 567-578): on
success dispatch `RECEIVED_ARRIVALS` with the payload and url; the catch
handler takes no argument at all and dispatches the fixed message
"No data.". -/
def fetchArrivalsContinuation (α : Type) (s3Url : String)
    (result : Except TransportError α) : Action α :=
  match result with
  | .ok payload => .receivedArrivals (some s3Url) (some payload)
  | .error _ => .errorArrivals "No data."

/-- Monday-to-Friday day-of-week mask (spec section 8 example). -/
def weekdaysOnly : Fin 7 → Bool := fun i => decide (1 ≤ (i : Nat) ∧ (i : Nat) ≤ 5)

/-- Day-of-week mask with only the Sunday flag set. -/
def sundayOnly : Fin 7 → Bool := fun i => decide ((i : Nat) = 0)

/-- Concrete primary range: Monday (day 1) through Friday (day 5),
mirroring the spec's `2023-03-06 .. 2023-03-10` example. -/
def exampleRange : DateRangeSelection :=
  { date := 5, startDate := 1, startTime := none, endTime := none,
    daysOfTheWeek := weekdaysOnly }

/-- Concrete selection params with every identifier present. -/
def exampleParams : SelectionParams :=
  { agencyId := some "sf-muni", routeId := some "12", directionId := some "0",
    startStopId := some "s1", endStopId := some "s2",
    firstDateRange := exampleRange, secondDateRange := none }

/-- A fresh store state: nothing requested or received yet. -/
def initialState : StoreState :=
  { graphParams := exampleParams, routeMetricsVariablesJson := none,
    agencyMetricsVariablesJson := none, arrivalsUrl := none }

/-- Concrete selection: same params but a different route (identity
triple changed). -/
def changedParams : SelectionParams := { exampleParams with routeId := some "14" }

/-- Concrete range with equal anchors on a Monday and only the Sunday
flag set: some weekday flag is true but not the one for the anchor. -/
def counterRange4 : DateRangeSelection :=
  { date := 1, startDate := 1, startTime := none, endTime := none,
    daysOfTheWeek := sundayOnly }

/-- Concrete range whose start anchor (day 3) is chronologically after
its end anchor (day 0), with every weekday flag set. -/
def counterRange3 : DateRangeSelection :=
  { date := 0, startDate := 3, startTime := none, endTime := none,
    daysOfTheWeek := fun _ => true }

/-- Concrete range with equal anchors on a Monday and the Monday flag
set. -/
def oneDayRange : DateRangeSelection :=
  { date := 1, startDate := 1, startTime := none, endTime := none,
    daysOfTheWeek := weekdaysOnly }

/-- Every member of `computeDates` comes from a loop index below the
clamped span, lands `i` days after `startDate`, and passed its weekday
flag check. -/
theorem mem_computeDates {m : Nat} {p : DateRangeSelection} {d : Nat}
    (h : d ∈ computeDates m p) :
    ∃ i, i < min (((p.date : Int) - (p.startDate : Int)).natAbs + 1) m ∧
      d = p.startDate + i ∧ p.daysOfTheWeek (dayOfWeek d) = true := by
  simp only [computeDates, List.mem_filterMap, List.mem_range] at h
  obtain ⟨i, hi, hf⟩ := h
  refine ⟨i, hi, ?_⟩
  split at hf
  · cases hf
    exact ⟨rfl, by assumption⟩
  · cases hf

/-- The expansion never emits more dates than the clamped span. -/
theorem computeDates_length_le (m : Nat) (p : DateRangeSelection) :
    (computeDates m p).length ≤ m := by
  refine le_trans (List.length_filterMap_le _ _) ?_
  simp [min_le_right]

/-- Claim C5: for every selection and every maximum range, the list
returned by `computeDates` has length at most the maximum, and every
emitted date's day-of-week flag (0=Sunday..6=Saturday) is true. -/
theorem claim_C5_expand_bounds (m : Nat) (p : DateRangeSelection) :
    (computeDates m p).length ≤ m ∧
      ∀ d ∈ computeDates m p, p.daysOfTheWeek (dayOfWeek d) = true := by
  refine ⟨computeDates_length_le m p, fun d hd => ?_⟩
  obtain ⟨i, _, _, hflag⟩ := mem_computeDates hd
  exact hflag

/-- Witness for C5 at the spec's Monday-to-Friday example range. -/
theorem claim_C5_witness :
    (computeDates 90 exampleRange).length ≤ 90 ∧
      ∀ d ∈ computeDates 90 exampleRange,
        exampleRange.daysOfTheWeek (dayOfWeek d) = true :=
  claim_C5_expand_bounds 90 exampleRange

/-- Claim C3 counterexample: for the selection with end anchor day 0 and
start anchor day 3 (so `deltaDays = -3 < 0`), the walk emits day 4, which
lies outside the closed interval between the two anchors; the walk does
not originate at the chronologically earlier anchor. -/
theorem claim_C3_counterexample :
    ((counterRange3.date : Int) - (counterRange3.startDate : Int) < 0) ∧
      ¬∀ d ∈ computeDates 90 counterRange3,
          min counterRange3.date counterRange3.startDate ≤ d ∧
            d ≤ max counterRange3.date counterRange3.startDate := by decide

/-- Claim C3 as amended: the day-by-day walk of `computeDates` always
originates at `startDate`, whichever anchor is earlier: every emitted
date `d` satisfies `startDate ≤ d ≤ startDate + |deltaDays|`.  Only when
`deltaDays ≥ 0` (startDate not after date) do all emitted dates lie in
the closed interval between the anchors. -/
theorem claim_C3_amended (m : Nat) (p : DateRangeSelection) :
    (∀ d ∈ computeDates m p,
        p.startDate ≤ d ∧
          (d : Int) ≤ (p.startDate : Int) +
            ((p.date : Int) - (p.startDate : Int)).natAbs) ∧
      (p.startDate ≤ p.date → ∀ d ∈ computeDates m p,
        p.startDate ≤ d ∧ d ≤ p.date) := by
  constructor
  · intro d hd
    obtain ⟨i, hi, hdi, _⟩ := mem_computeDates hd
    subst hdi
    omega
  · intro hle d hd
    obtain ⟨i, hi, hdi, _⟩ := mem_computeDates hd
    subst hdi
    omega

/-- Witness for C3's amended statement at the spec's example range. -/
theorem claim_C3_witness :
    exampleRange.startDate ≤ exampleRange.date ∧
      ∀ d ∈ computeDates 90 exampleRange,
        exampleRange.startDate ≤ d ∧ d ≤ exampleRange.date :=
  ⟨by decide, (claim_C3_amended 90 exampleRange).2 (by decide)⟩

/-- Claim C4 counterexample: anchors equal on a Monday with only the
Sunday flag set — some weekday flag is true and `maxDays = 90 ≥ 1`, but
`computeDates` returns no date at all, not exactly one. -/
theorem claim_C4_counterexample :
    counterRange4.startDate = counterRange4.date ∧
      (∃ i, counterRange4.daysOfTheWeek i = true) ∧
      (1 : Nat) ≤ 90 ∧ (computeDates 90 counterRange4).length ≠ 1 := by decide

/-- Claim C4 as amended: when the two anchors are equal, `maxDays ≥ 1`,
and the flag indexed by that date's own day of week is true,
`computeDates` returns exactly one date. -/
theorem claim_C4_amended (m : Nat) (p : DateRangeSelection)
    (hsd : p.startDate = p.date) (hm : 1 ≤ m)
    (hflag : p.daysOfTheWeek (dayOfWeek p.date) = true) :
    (computeDates m p).length = 1 := by
  have h0 : ((p.date : Int) - (p.startDate : Int)).natAbs = 0 := by
    rw [hsd]; simp
  have hflag2 : p.daysOfTheWeek (dayOfWeek (p.startDate + 0)) = true := by
    rw [Nat.add_zero, hsd]; exact hflag
  have hmin : min (0 + 1) m = 1 := by omega
  have hr : List.range 1 = [0] := rfl
  simp only [computeDates, h0, hmin, hr, List.filterMap, hflag2, if_pos]
  rfl

/-- Witness for C4's amended statement: Monday anchor with the Monday
flag set yields exactly the one date. -/
theorem claim_C4_witness :
    oneDayRange.startDate = oneDayRange.date ∧ (1 : Nat) ≤ 90 ∧
      oneDayRange.daysOfTheWeek (dayOfWeek oneDayRange.date) = true ∧
      (computeDates 90 oneDayRange).length = 1 :=
  ⟨rfl, by decide, by decide, claim_C4_amended 90 oneDayRange rfl (by decide) (by decide)⟩

/-- Claim C6: in the trip-scope bindings, `includeByDay` is true exactly
when no second date range is present and the expanded primary date list
has more than one entry. -/
theorem claim_C6_includeByDay (m : Nat) (p : SelectionParams) :
    (tripVariables m p).includeByDay = true ↔
      p.secondDateRange = none ∧
        1 < (computeDates m p.firstDateRange).length := by
  simp only [tripVariables, Bool.and_eq_true, Option.isNone_iff_eq_none,
    decide_eq_true_eq, gt_iff_lt]

/-- Witness for C6 at the concrete example params. -/
theorem claim_C6_witness :
    (tripVariables 90 exampleParams).includeByDay = true ↔
      exampleParams.secondDateRange = none ∧
        1 < (computeDates 90 exampleParams.firstDateRange).length :=
  claim_C6_includeByDay 90 exampleParams

/-- Claim C7: for the trip, route and agency scopes, a response whose
payload carries a non-empty `errors` list makes the continuation emit the
Errored transition whose message is exactly the first error's `message`;
the single emitted action is an error action, so no Received transition
is emitted for that response. -/
theorem claim_C7_first_error_message (α : Type) (e : GraphQLError)
    (es : List GraphQLError) (dT : Option (TripData α)) (dR : Option (RouteData α))
    (dA : Option (AgencyData α)) (v : RouteVariables) (va : AgencyVariables) :
    tripThen α (some ⟨dT, some (e :: es)⟩) = .errorTripMetrics e.message ∧
      routeThen α v (some ⟨dR, some (e :: es)⟩) = .errorRouteMetrics e.message ∧
      agencyThen α va (some ⟨dA, some (e :: es)⟩) = .errorAgencyMetrics e.message :=
  ⟨rfl, rfl, rfl⟩

/-- Witness for C7 at the spec's example payload, whose errors list is
exactly the one message "bad route". -/
theorem claim_C7_witness :
    tripThen Unit (some ⟨none, some [⟨"bad route"⟩]⟩) =
        Action.errorTripMetrics "bad route" ∧
      routeThen Unit (routeVariables "sf-muni" 90 exampleParams)
          (some ⟨none, some [⟨"bad route"⟩]⟩) =
        Action.errorRouteMetrics "bad route" ∧
      agencyThen Unit (agencyVariables "sf-muni" 90 exampleParams)
          (some ⟨none, some [⟨"bad route"⟩]⟩) =
        Action.errorAgencyMetrics "bad route" :=
  claim_C7_first_error_message Unit ⟨"bad route"⟩ [] none none none
    (routeVariables "sf-muni" 90 exampleParams)
    (agencyVariables "sf-muni" 90 exampleParams)

/-- Claim C8: every failure of the arrival-archive fetch, whatever the
transport error carries, makes the catch handler emit the Errored
transition with exactly the fixed message "No data."; the underlying
error's message never appears. -/
theorem claim_C8_archive_fixed_error (α : Type) (s3Url : String)
    (err : TransportError) :
    fetchArrivalsContinuation α s3Url (.error err) =
      Action.errorArrivals "No data." :=
  rfl

/-- Witness for C8 at a concrete failure cause. -/
theorem claim_C8_witness :
    fetchArrivalsContinuation Unit
        (arrivalsUrlOf "opentransit" "v1" exampleParams)
        (.error ⟨"Request failed with status code 403"⟩) =
      Action.errorArrivals "No data." :=
  claim_C8_archive_fixed_error Unit
    (arrivalsUrlOf "opentransit" "v1" exampleParams)
    ⟨"Request failed with status code 403"⟩

/-- Claim C9: `generateArrivalsURL` produces exactly the documented S3
url, the date path segments being the ISO date with every dash replaced
by a slash; at the spec's example inputs with version literal "v1" the
resulting url is the expected literal. -/
theorem claim_C9_arrivals_url (S3Bucket ArrivalsVersion agencyId dateStr routeId :
    String) :
    generateArrivalsURL S3Bucket ArrivalsVersion agencyId dateStr routeId =
        "https://" ++ S3Bucket ++ ".s3.amazonaws.com/arrivals/" ++ ArrivalsVersion ++
          "/" ++ agencyId ++ "/" ++
          String.mk (dateStr.data.map fun c => if c = '-' then '/' else c) ++
          "/arrivals_" ++ ArrivalsVersion ++ "_" ++ agencyId ++ "_" ++ dateStr ++ "_" ++
          routeId ++ ".json.gz?aj" ∧
      generateArrivalsURL "opentransit" "v1" "sf-muni" "2023-03-06" "12" =
        "https://opentransit.s3.amazonaws.com/arrivals/v1/sf-muni/2023/03/06/arrivals_v1_sf-muni_2023-03-06_12.json.gz?aj" :=
  ⟨rfl, by decide⟩

/-- Witness for C9 at the spec's example inputs. -/
theorem claim_C9_witness :
    generateArrivalsURL "opentransit" "v1" "sf-muni" "2023-03-06" "12" =
      "https://opentransit.s3.amazonaws.com/arrivals/v1/sf-muni/2023/03/06/arrivals_v1_sf-muni_2023-03-06_12.json.gz?aj" :=
  (claim_C9_arrivals_url "opentransit" "v1" "sf-muni" "2023-03-06" "12").2

/-- Claim C10: the route-scope and agency-scope variable bindings are
unchanged when only `params.agencyId` changes — both bind the query's
`agencyId` to the first configured agency, never to `params.agencyId` —
while the trip-scope bindings do take `agencyId` from the params. -/
theorem claim_C10_agency_insensitive (agency0 : String) (m : Nat)
    (p : SelectionParams) (newAgencyId : Option String) :
    routeVariables agency0 m { p with agencyId := newAgencyId } =
        routeVariables agency0 m p ∧
      agencyVariables agency0 m { p with agencyId := newAgencyId } =
        agencyVariables agency0 m p ∧
      (routeVariables agency0 m p).agencyId = agency0 ∧
      (agencyVariables agency0 m p).agencyId = agency0 ∧
      (tripVariables m p).agencyId = p.agencyId :=
  ⟨rfl, rfl, rfl, rfl, rfl⟩

/-- Witness for C10: changing the params' agency from "sf-muni" to
"other" leaves the route- and agency-scope bindings identical. -/
theorem claim_C10_witness :
    routeVariables "sf-muni" 90 { exampleParams with agencyId := some "other" } =
        routeVariables "sf-muni" 90 exampleParams ∧
      agencyVariables "sf-muni" 90 { exampleParams with agencyId := some "other" } =
        agencyVariables "sf-muni" 90 exampleParams ∧
      (routeVariables "sf-muni" 90 exampleParams).agencyId = "sf-muni" ∧
      (agencyVariables "sf-muni" 90 exampleParams).agencyId = "sf-muni" ∧
      (tripVariables 90 exampleParams).agencyId = exampleParams.agencyId :=
  claim_C10_agency_insensitive "sf-muni" 90 exampleParams (some "other")

/-- Claim C1 counterexample: invoking the trip-metrics fetch twice in
succession with identical variable bindings issues two network calls, not
exactly one — the trip scope performs no dedup comparison at all. -/
theorem claim_C1_counterexample :
    fetchTripMetricsTwice 90 exampleParams initialState ≠ 1 ∧
      fetchTripMetricsTwice 90 exampleParams initialState = 2 := by decide

/-- Claim C1 as amended: the route-metrics, agency-metrics and
arrival-archive fetches are no-ops (no dispatch, no network call) when
their dedup key — the serialized bindings, or the archive's resource
location — equals the value recorded in state, and two successive
route- or agency-scope invocations with identical bindings issue exactly
one network call; but the trip-metrics fetch never dedups (two
invocations always issue two calls), and the archive scope records its
url only on receipt, so two successive invocations before any response
also issue two calls. -/
theorem claim_C1_amended_dedup :
    (∀ (α : Type) (agency0 : String) (m : Nat) (p : SelectionParams) (s : StoreState),
        s.routeMetricsVariablesJson = some (routeVariables agency0 m p) →
          fetchRouteMetricsSync α agency0 m p s = ([], [])) ∧
      (∀ (α : Type) (agency0 : String) (m : Nat) (p : SelectionParams) (s : StoreState),
        s.agencyMetricsVariablesJson = some (agencyVariables agency0 m p) →
          fetchAgencyMetricsSync α agency0 m p s = ([], [])) ∧
      (∀ (α : Type) (bucket ver : String) (p : SelectionParams) (s : StoreState),
        s.arrivalsUrl = some (arrivalsUrlOf bucket ver p) →
          fetchArrivalsSync α bucket ver p s = ([], [])) ∧
      (∀ (agency0 : String) (m : Nat) (p : SelectionParams) (s : StoreState),
        s.routeMetricsVariablesJson ≠ some (routeVariables agency0 m p) →
          fetchRouteMetricsTwice agency0 m p s = 1) ∧
      (∀ (agency0 : String) (m : Nat) (p : SelectionParams) (s : StoreState),
        s.agencyMetricsVariablesJson ≠ some (agencyVariables agency0 m p) →
          fetchAgencyMetricsTwice agency0 m p s = 1) ∧
      (∀ (m : Nat) (p : SelectionParams) (s : StoreState),
        fetchTripMetricsTwice m p s = 2) ∧
      (∀ (bucket ver : String) (p : SelectionParams) (s : StoreState),
        s.arrivalsUrl ≠ some (arrivalsUrlOf bucket ver p) →
          fetchArrivalsTwice bucket ver p s = 2) := by
  refine ⟨?_, ?_, ?_, ?_, ?_, ?_, ?_⟩
  · intro α agency0 m p s h
    simp [fetchRouteMetricsSync, h]
  · intro α agency0 m p s h
    simp [fetchAgencyMetricsSync, h]
  · intro α bucket ver p s h
    simp [fetchArrivalsSync, h]
  · intro agency0 m p s h
    simp [fetchRouteMetricsTwice, fetchRouteMetricsSync, applyAction, h]
  · intro agency0 m p s h
    simp [fetchAgencyMetricsTwice, fetchAgencyMetricsSync, applyAction, h]
  · intro m p s
    rfl
  · intro bucket ver p s h
    simp [fetchArrivalsTwice, fetchArrivalsSync, applyAction, h]

/-- Witness for C1's amended statement: at concrete inputs, a matching
recorded fingerprint makes the route fetch a no-op, two fresh route-scope
invocations issue one call, and two trip-scope or archive-scope
invocations issue two. -/
theorem claim_C1_witness :
    fetchRouteMetricsSync Unit "sf-muni" 90 exampleParams
        { initialState with
            routeMetricsVariablesJson :=
              some (routeVariables "sf-muni" 90 exampleParams) } = ([], []) ∧
      fetchRouteMetricsTwice "sf-muni" 90 exampleParams initialState = 1 ∧
      fetchAgencyMetricsTwice "sf-muni" 90 exampleParams initialState = 1 ∧
      fetchTripMetricsTwice 90 exampleParams initialState = 2 ∧
      fetchArrivalsTwice "opentransit" "v1" exampleParams initialState = 2 :=
  ⟨claim_C1_amended_dedup.1 Unit "sf-muni" 90 exampleParams _ rfl,
    claim_C1_amended_dedup.2.2.2.1 "sf-muni" 90 exampleParams initialState (by decide),
    claim_C1_amended_dedup.2.2.2.2.1 "sf-muni" 90 exampleParams initialState (by decide),
    claim_C1_amended_dedup.2.2.2.2.2.1 90 exampleParams initialState,
    claim_C1_amended_dedup.2.2.2.2.2.2 "opentransit" "v1" exampleParams initialState
      (by decide)⟩

/-- Claim C2: when any component of the identity triple (first range
date, routeId, agencyId) differs from its previously stored value,
`handleGraphParams` dispatches the params replacement and then the
arrival-archive reset (`RECEIVED_ARRIVALS` with null url and data)
before every other action of the trace; the only action preceding the
reset is the params replacement, which is not a metrics-fetch transition,
so the reset is observable before any agency/route/trip
Requested/Received/Errored transition. -/
theorem claim_C2_reset_precedes_fetches (α : Type) (agency0 : String) (m : Nat)
    (p : SelectionParams) (s : StoreState)
    (h : s.graphParams.firstDateRange.date ≠ p.firstDateRange.date ∨
        s.graphParams.routeId ≠ p.routeId ∨ s.graphParams.agencyId ≠ p.agencyId) :
    ∃ post, (handleGraphParams α agency0 m p s).1 =
        Action.receivedGraphParams p :: Action.receivedArrivals none none :: post ∧
      isMetricsTransition (Action.receivedGraphParams p : Action α) = false := by
  refine ⟨(handleGraphParams α agency0 m p s).1.drop 2, ?_, rfl⟩
  unfold handleGraphParams
  simp only [applyAction]
  rw [if_pos h]
  rfl

/-- Witness for C2: replacing the selection with one whose routeId
differs puts the archive reset right after the params replacement in the
dispatched trace. -/
theorem claim_C2_witness :
    ∃ post, (handleGraphParams Unit "sf-muni" 90 changedParams initialState).1 =
        Action.receivedGraphParams changedParams ::
          Action.receivedArrivals none none :: post ∧
      isMetricsTransition
          (Action.receivedGraphParams changedParams : Action Unit) = false :=
  claim_C2_reset_precedes_fetches Unit "sf-muni" 90 changedParams initialState
    (Or.inr (Or.inl (by decide)))

end OpenTransit
